import Mathlib

/-!
Verification of the HTTP CONNECT proxy test fixture
(`test/core/end2end/fixtures/http_proxy_fixture.cc`).

The connection state machine is shallowly embedded: the `proxy_connection`
struct becomes a Lean structure (bytes are `Nat`s, slice buffers are
`List Nat`), each `*_locked` callback becomes a pure state-transformer, and
the asynchronous I/O completions become an explicit event type with a
validity predicate and a `run` function folding events over the state.
Instrumentation fields (pending-operation flags, byte-stream ghosts,
shutdown-call counters) record the externally observable interactions with
the two endpoints; they are written exactly at the source's
`grpc_endpoint_read` / `grpc_endpoint_write` / `grpc_endpoint_shutdown`
call sites and are never read by the transcribed code itself.
-/

namespace HttpProxy

/-- The `failure_type` enum of the source. -/
inductive FailureType
  | SETUP_FAILED
  | CLIENT_READ_FAILED
  | CLIENT_WRITE_FAILED
  | SERVER_READ_FAILED
  | SERVER_WRITE_FAILED
deriving DecidableEq, Repr

/-- Handshake/relay phase of a connection (implicit in the source's
closure wiring: which completion callback is armed next). -/
inductive Phase
  | CONNECTING
  | WRITING_200
  | RELAYING
deriving DecidableEq, Repr

/-- The `proxy_connection` struct.  Fields up to `phase` mirror the
source struct (endpoints themselves are externalized; `server_endpoint_set`
models `server_endpoint != nullptr`, `destroyed` models the memory having
been freed by `proxy_connection_unref`).  The remaining fields are
instrumentation: pending-read flags, the four byte streams exchanged with
the endpoints, counts of `grpc_endpoint_shutdown` calls per side, and
counts of issued reads/writes per side. -/
structure proxy_connection where
  client_read_failed : Bool
  client_write_failed : Bool
  client_shutdown : Bool
  server_read_failed : Bool
  server_write_failed : Bool
  server_shutdown : Bool
  client_read_buffer : List Nat
  client_deferred_write_buffer : List Nat
  client_is_writing : Bool
  client_write_buffer : List Nat
  server_read_buffer : List Nat
  server_deferred_write_buffer : List Nat
  server_is_writing : Bool
  server_write_buffer : List Nat
  refcount : Nat
  server_endpoint_set : Bool
  destroyed : Bool
  phase : Phase
  client_read_pending : Bool
  server_read_pending : Bool
  read_from_client : List Nat
  read_from_server : List Nat
  written_to_client : List Nat
  written_to_server : List Nat
  client_shutdown_calls : Nat
  server_shutdown_calls : Nat
  client_reads_issued : Nat
  server_reads_issued : Nat
  client_writes_issued : Nat
  server_writes_issued : Nat
deriving DecidableEq, Repr

/-- The destruction branch of `proxy_connection_unref`: destroys the
endpoints and the six slice buffers and frees the connection.  The
endpoint-interaction ghosts record history and are left intact. -/
def destroyConn (c : proxy_connection) : proxy_connection :=
  { c with
    refcount := 0
    destroyed := true
    client_read_buffer := []
    client_deferred_write_buffer := []
    client_write_buffer := []
    server_read_buffer := []
    server_deferred_write_buffer := []
    server_write_buffer := [] }

/-- `proxy_connection_ref`. -/
def proxy_connection_ref (c : proxy_connection) : proxy_connection :=
  { c with refcount := c.refcount + 1 }

/-- `proxy_connection_unref`: drop one ref; at zero, destroy everything. -/
def proxy_connection_unref (c : proxy_connection) : proxy_connection :=
  if c.refcount = 1 then destroyConn c
  else { c with refcount := c.refcount - 1 }

/-- The decision block of `proxy_connection_failed` (source lines
186-202): which endpoints to shut down, as a pair
`(shutdown_client, shutdown_server)`. -/
def shutdown_decisions (c : proxy_connection) (failure : FailureType) :
    Bool × Bool :=
  if failure = FailureType.SETUP_FAILED then
    (true, true)
  else
    ((decide (failure = FailureType.CLIENT_READ_FAILED) && c.client_write_failed) ||
     (decide (failure = FailureType.CLIENT_WRITE_FAILED) && c.client_read_failed) ||
     (decide (failure = FailureType.SERVER_READ_FAILED) && !c.client_is_writing),
     (decide (failure = FailureType.SERVER_READ_FAILED) && c.server_write_failed) ||
     (decide (failure = FailureType.SERVER_WRITE_FAILED) && c.server_read_failed) ||
     (decide (failure = FailureType.CLIENT_READ_FAILED) && !c.server_is_writing))

/-- `proxy_connection_failed`: decide the shutdowns, perform each at most
once (the server one only when the endpoint exists), then unref. -/
def proxy_connection_failed (c : proxy_connection) (failure : FailureType) :
    proxy_connection :=
  let d := shutdown_decisions c failure
  let c1 :=
    if d.1 && !c.client_shutdown then
      { c with
        client_shutdown := true
        client_shutdown_calls := c.client_shutdown_calls + 1 }
    else c
  let c2 :=
    if d.2 && !c1.server_shutdown && c1.server_endpoint_set then
      { c1 with
        server_shutdown := true
        server_shutdown_calls := c1.server_shutdown_calls + 1 }
    else c1
  proxy_connection_unref c2

/-- `on_client_write_done_locked`: clear `client_is_writing`; on error run
the failure policy; otherwise reset the just-written buffer (recording its
bytes as delivered to the client endpoint), then either re-issue a write
from the deferred buffer or drop the write's ref. -/
def on_client_write_done_locked (c : proxy_connection) (err : Bool) :
    proxy_connection :=
  let c := { c with client_is_writing := false }
  if err then
    proxy_connection_failed c FailureType.CLIENT_WRITE_FAILED
  else
    let c :=
      { c with
        written_to_client := c.written_to_client ++ c.client_write_buffer
        client_write_buffer := [] }
    if 0 < c.client_deferred_write_buffer.length then
      { c with
        client_write_buffer := c.client_write_buffer ++ c.client_deferred_write_buffer
        client_deferred_write_buffer := []
        client_is_writing := true
        client_writes_issued := c.client_writes_issued + 1 }
    else
      proxy_connection_unref c

/-- `on_server_write_done_locked` (mirror image of the client one). -/
def on_server_write_done_locked (c : proxy_connection) (err : Bool) :
    proxy_connection :=
  let c := { c with server_is_writing := false }
  if err then
    proxy_connection_failed c FailureType.SERVER_WRITE_FAILED
  else
    let c :=
      { c with
        written_to_server := c.written_to_server ++ c.server_write_buffer
        server_write_buffer := [] }
    if 0 < c.server_deferred_write_buffer.length then
      { c with
        server_write_buffer := c.server_write_buffer ++ c.server_deferred_write_buffer
        server_deferred_write_buffer := []
        server_is_writing := true
        server_writes_issued := c.server_writes_issued + 1 }
    else
      proxy_connection_unref c

/-- `on_client_read_done_locked`: on error run the failure policy (the read
is not re-armed); on success either defer the read bytes (a server write is
in flight) or move them into the server write buffer, take a ref and issue
the write; in both cases re-issue the client read. -/
def on_client_read_done_locked (c : proxy_connection) (err : Bool) :
    proxy_connection :=
  if err then
    proxy_connection_failed { c with client_read_pending := false }
      FailureType.CLIENT_READ_FAILED
  else
    let c :=
      if c.server_is_writing then
        { c with
          server_deferred_write_buffer :=
            c.server_deferred_write_buffer ++ c.client_read_buffer
          client_read_buffer := [] }
      else
        { c with
          server_write_buffer := c.server_write_buffer ++ c.client_read_buffer
          client_read_buffer := []
          refcount := c.refcount + 1
          server_is_writing := true
          server_writes_issued := c.server_writes_issued + 1 }
    { c with
      client_reads_issued := c.client_reads_issued + 1
      client_read_pending := true }

/-- `on_server_read_done_locked` (mirror image of the client one). -/
def on_server_read_done_locked (c : proxy_connection) (err : Bool) :
    proxy_connection :=
  if err then
    proxy_connection_failed { c with server_read_pending := false }
      FailureType.SERVER_READ_FAILED
  else
    let c :=
      if c.client_is_writing then
        { c with
          client_deferred_write_buffer :=
            c.client_deferred_write_buffer ++ c.server_read_buffer
          server_read_buffer := [] }
      else
        { c with
          client_write_buffer := c.client_write_buffer ++ c.server_read_buffer
          server_read_buffer := []
          refcount := c.refcount + 1
          client_is_writing := true
          client_writes_issued := c.client_writes_issued + 1 }
    { c with
      server_reads_issued := c.server_reads_issued + 1
      server_read_pending := true }

/-- The 200 response literal of `on_server_connect_done_locked`. -/
def http_200_response : String := "HTTP/1.0 200 connected\r\n\r\n"

/-- The bytes of the 200 response. -/
def http_200_bytes : List Nat := http_200_response.data.map Char.toNat

/-- `on_server_connect_done_locked`: on error run the failure policy as a
setup failure (the server endpoint was not filled in); on success the dial
has filled in `server_endpoint`, enqueue the 200 literal into the client
write buffer and issue the write. -/
def on_server_connect_done_locked (c : proxy_connection) (err : Bool) :
    proxy_connection :=
  if err then
    proxy_connection_failed c FailureType.SETUP_FAILED
  else
    { c with
      server_endpoint_set := true
      client_write_buffer := c.client_write_buffer ++ http_200_bytes
      client_is_writing := true
      client_writes_issued := c.client_writes_issued + 1
      phase := Phase.WRITING_200 }

/-- `on_write_response_done_locked`: clear `client_is_writing`; on error,
setup failure; on success clear the write buffer, take one extra ref for
the second read (ref, ref, unref), and post the two relay reads. -/
def on_write_response_done_locked (c : proxy_connection) (err : Bool) :
    proxy_connection :=
  let c := { c with client_is_writing := false }
  if err then
    proxy_connection_failed c FailureType.SETUP_FAILED
  else
    let c := { c with client_write_buffer := [] }
    let c := proxy_connection_unref (proxy_connection_ref (proxy_connection_ref c))
    { c with
      phase := Phase.RELAYING
      client_read_pending := true
      server_read_pending := true
      client_reads_issued := c.client_reads_issued + 1
      server_reads_issued := c.server_reads_issued + 1 }

/-- I/O completion events delivered to a connection.  Read completions
carry the bytes the endpoint appended to the read buffer before invoking
the callback. -/
inductive Event
  | serverConnectOk
  | serverConnectErr
  | writeResponseOk
  | writeResponseErr
  | clientReadOk (b : List Nat)
  | clientReadErr
  | serverReadOk (b : List Nat)
  | serverReadErr
  | clientWriteOk
  | clientWriteErr
  | serverWriteOk
  | serverWriteErr
deriving DecidableEq, Repr

/-- Events that carry a success status. -/
def okEvent : Event → Bool
  | Event.serverConnectOk => true
  | Event.writeResponseOk => true
  | Event.clientReadOk _ => true
  | Event.serverReadOk _ => true
  | Event.clientWriteOk => true
  | Event.serverWriteOk => true
  | _ => false

/-- An event may fire only while the corresponding operation is
outstanding on a live connection. -/
def validEvent (c : proxy_connection) (e : Event) : Bool :=
  !c.destroyed &&
  match e with
  | Event.serverConnectOk => decide (c.phase = Phase.CONNECTING)
  | Event.serverConnectErr => decide (c.phase = Phase.CONNECTING)
  | Event.writeResponseOk =>
      decide (c.phase = Phase.WRITING_200) && c.client_is_writing
  | Event.writeResponseErr =>
      decide (c.phase = Phase.WRITING_200) && c.client_is_writing
  | Event.clientReadOk _ =>
      decide (c.phase = Phase.RELAYING) && c.client_read_pending
  | Event.clientReadErr =>
      decide (c.phase = Phase.RELAYING) && c.client_read_pending
  | Event.serverReadOk _ =>
      decide (c.phase = Phase.RELAYING) && c.server_read_pending
  | Event.serverReadErr =>
      decide (c.phase = Phase.RELAYING) && c.server_read_pending
  | Event.clientWriteOk =>
      decide (c.phase = Phase.RELAYING) && c.client_is_writing
  | Event.clientWriteErr =>
      decide (c.phase = Phase.RELAYING) && c.client_is_writing
  | Event.serverWriteOk =>
      decide (c.phase = Phase.RELAYING) && c.server_is_writing
  | Event.serverWriteErr =>
      decide (c.phase = Phase.RELAYING) && c.server_is_writing

/-- Dispatch one event: successful reads first let the endpoint append the
delivered bytes to the staging buffer (recorded in the stream ghosts), then
the corresponding `*_locked` callback runs under the combiner. -/
def step (c : proxy_connection) (e : Event) : proxy_connection :=
  match e with
  | Event.serverConnectOk => on_server_connect_done_locked c false
  | Event.serverConnectErr => on_server_connect_done_locked c true
  | Event.writeResponseOk => on_write_response_done_locked c false
  | Event.writeResponseErr => on_write_response_done_locked c true
  | Event.clientReadOk b =>
      on_client_read_done_locked
        { c with
          client_read_buffer := c.client_read_buffer ++ b
          read_from_client := c.read_from_client ++ b } false
  | Event.clientReadErr => on_client_read_done_locked c true
  | Event.serverReadOk b =>
      on_server_read_done_locked
        { c with
          server_read_buffer := c.server_read_buffer ++ b
          read_from_server := c.read_from_server ++ b } false
  | Event.serverReadErr => on_server_read_done_locked c true
  | Event.clientWriteOk => on_client_write_done_locked c false
  | Event.clientWriteErr => on_client_write_done_locked c true
  | Event.serverWriteOk => on_server_write_done_locked c false
  | Event.serverWriteErr => on_server_write_done_locked c true

/-- Run a list of events, requiring each to be valid when it fires. -/
def run (c : proxy_connection) : List Event → Option proxy_connection
  | [] => some c
  | e :: es => if validEvent c e then run (step c e) es else none

/-- Connection state at the point where the CONNECT request has been read,
validated and resolved and the dial of the origin has been issued: the
birth ref is held by the pending connect, no other I/O is outstanding. -/
def connectInit : proxy_connection :=
  { client_read_failed := false
    client_write_failed := false
    client_shutdown := false
    server_read_failed := false
    server_write_failed := false
    server_shutdown := false
    client_read_buffer := []
    client_deferred_write_buffer := []
    client_is_writing := false
    client_write_buffer := []
    server_read_buffer := []
    server_deferred_write_buffer := []
    server_is_writing := false
    server_write_buffer := []
    refcount := 1
    server_endpoint_set := false
    destroyed := false
    phase := Phase.CONNECTING
    client_read_pending := false
    server_read_pending := false
    read_from_client := []
    read_from_server := []
    written_to_client := []
    written_to_server := []
    client_shutdown_calls := 0
    server_shutdown_calls := 0
    client_reads_issued := 0
    server_reads_issued := 0
    client_writes_issued := 0
    server_writes_issued := 0 }

/-- Connection state on entry into `RELAYING`: the 200 response write has
completed, both relay reads are posted (each holding one ref).  The relay
byte-stream ghosts start empty: only bytes exchanged after the handshake
are relayed. -/
def relayStart : proxy_connection :=
  { client_read_failed := false
    client_write_failed := false
    client_shutdown := false
    server_read_failed := false
    server_write_failed := false
    server_shutdown := false
    client_read_buffer := []
    client_deferred_write_buffer := []
    client_is_writing := false
    client_write_buffer := []
    server_read_buffer := []
    server_deferred_write_buffer := []
    server_is_writing := false
    server_write_buffer := []
    refcount := 2
    server_endpoint_set := true
    destroyed := false
    phase := Phase.RELAYING
    client_read_pending := true
    server_read_pending := true
    read_from_client := []
    read_from_server := []
    written_to_client := []
    written_to_server := []
    client_shutdown_calls := 0
    server_shutdown_calls := 0
    client_reads_issued := 1
    server_reads_issued := 1
    client_writes_issued := 1
    server_writes_issued := 0 }

/-- A concrete relay state used to exercise corner cases: a server write
in flight with one deferred byte and a single remaining ref. -/
def lastRefState : proxy_connection :=
  { relayStart with
    server_is_writing := true
    server_write_buffer := [1]
    server_deferred_write_buffer := [2]
    refcount := 1 }

/-- `proxy_auth_header_matches`: the header value must start with the six
bytes `"Basic "`; the remainder is base64-decoded (the decoder is an
external collaborator, passed in as `b64`, returning `""` on failure) and
compared with the expected credential. -/
def proxy_auth_header_matches (b64 : String → String)
    (proxy_auth_header_val : String) (expected_cred : String) : Bool :=
  if proxy_auth_header_val.take 6 ≠ "Basic " then
    false
  else
    decide (b64 (proxy_auth_header_val.drop 6) = expected_cred)

/-- The header scan of `on_read_request_done_locked`: walk the headers,
and at the first one whose key is exactly `Proxy-Authorization` set the
result from `proxy_auth_header_matches` and stop (the source's `break`). -/
def scan_proxy_auth (b64 : String → String) (expected_cred : String) :
    List (String × String) → Bool
  | [] => false
  | h :: rest =>
      if h.1 = "Proxy-Authorization" then
        proxy_auth_header_matches b64 h.2 expected_cred
      else
        scan_proxy_auth b64 expected_cred rest

/-- The auth stage of `on_read_request_done_locked`: skipped entirely when
no expected credential is configured, otherwise the connection proceeds
exactly when the header scan authenticated the client (`false` means the
connection is torn down as a setup failure). -/
def auth_check (b64 : String → String) (expected : Option String)
    (hdrs : List (String × String)) : Bool :=
  match expected with
  | none => true
  | some cred => scan_proxy_auth b64 cred hdrs

/-- Outcome of the resolve-and-dial tail of `on_read_request_done_locked`. -/
inductive ResolveOutcome (α : Type)
  | teardown
  | assert_fail
  | dial (addr : α) (deadline : Int)
deriving DecidableEq, Repr

/-- The host/service pair passed to `LookupHostnameBlocking`: the request
path as host and the literal `"80"` as service. -/
def lookup_args (path : String) : String × String := (path, "80")

/-- The resolve-and-dial tail of `on_read_request_done_locked`: a lookup
error tears the connection down (setup failure); an empty result list trips
`GPR_ASSERT(!addresses_or->empty())`; otherwise the first address is dialed
with deadline `now + 10` seconds. -/
def resolve_and_connect {α : Type} (now : Int)
    (result : Except String (List α)) : ResolveOutcome α :=
  match result with
  | Except.error _ => ResolveOutcome.teardown
  | Except.ok addrs =>
      match addrs with
      | [] => ResolveOutcome.assert_fail
      | a :: _ => ResolveOutcome.dial a (now + 10)

/-- The four failure flags are all false. -/
def FlagsFalse (c : proxy_connection) : Prop :=
  c.client_read_failed = false ∧ c.client_write_failed = false ∧
  c.server_read_failed = false ∧ c.server_write_failed = false

/-- Each side's `grpc_endpoint_shutdown` call count equals the indicator
of its `shutdown` flag. -/
def ShutCount (c : proxy_connection) : Prop :=
  c.client_shutdown_calls = (if c.client_shutdown then 1 else 0) ∧
  c.server_shutdown_calls = (if c.server_shutdown then 1 else 0)

/-- Relay-phase invariant along error-free executions: each direction's
delivered bytes plus its in-flight and deferred bytes equal the bytes read
from the opposite endpoint; staging buffers are empty between steps;
deferred bytes exist only while a write is in flight; the refcount is two
(the pending reads) plus one per in-flight write. -/
def RelayInv (c : proxy_connection) : Prop :=
  c.written_to_server ++ c.server_write_buffer ++
      c.server_deferred_write_buffer = c.read_from_client ∧
  c.written_to_client ++ c.client_write_buffer ++
      c.client_deferred_write_buffer = c.read_from_server ∧
  c.client_read_buffer = [] ∧
  c.server_read_buffer = [] ∧
  (c.server_is_writing = false → c.server_deferred_write_buffer = []) ∧
  (c.client_is_writing = false → c.client_deferred_write_buffer = []) ∧
  c.refcount = 2 + (if c.client_is_writing then 1 else 0)
      + (if c.server_is_writing then 1 else 0) ∧
  c.phase = Phase.RELAYING ∧
  c.destroyed = false

/-- Sanity: running the successful handshake tail from `connectInit`
reaches exactly `relayStart`. -/
theorem relayStart_reached :
    run connectInit [Event.serverConnectOk, Event.writeResponseOk] =
      some relayStart := by decide

/-! ### Frame lemmas for the refcount helpers and the failure policy -/

@[simp] theorem unref_refcount (c : proxy_connection) :
    (proxy_connection_unref c).refcount = c.refcount - 1 := by
  unfold proxy_connection_unref destroyConn
  split <;> simp_all

@[simp] theorem unref_client_read_failed (c : proxy_connection) :
    (proxy_connection_unref c).client_read_failed = c.client_read_failed := by
  unfold proxy_connection_unref destroyConn; split <;> rfl

@[simp] theorem unref_client_write_failed (c : proxy_connection) :
    (proxy_connection_unref c).client_write_failed = c.client_write_failed := by
  unfold proxy_connection_unref destroyConn; split <;> rfl

@[simp] theorem unref_server_read_failed (c : proxy_connection) :
    (proxy_connection_unref c).server_read_failed = c.server_read_failed := by
  unfold proxy_connection_unref destroyConn; split <;> rfl

@[simp] theorem unref_server_write_failed (c : proxy_connection) :
    (proxy_connection_unref c).server_write_failed = c.server_write_failed := by
  unfold proxy_connection_unref destroyConn; split <;> rfl

@[simp] theorem unref_client_shutdown (c : proxy_connection) :
    (proxy_connection_unref c).client_shutdown = c.client_shutdown := by
  unfold proxy_connection_unref destroyConn; split <;> rfl

@[simp] theorem unref_server_shutdown (c : proxy_connection) :
    (proxy_connection_unref c).server_shutdown = c.server_shutdown := by
  unfold proxy_connection_unref destroyConn; split <;> rfl

@[simp] theorem unref_client_shutdown_calls (c : proxy_connection) :
    (proxy_connection_unref c).client_shutdown_calls = c.client_shutdown_calls := by
  unfold proxy_connection_unref destroyConn; split <;> rfl

@[simp] theorem unref_server_shutdown_calls (c : proxy_connection) :
    (proxy_connection_unref c).server_shutdown_calls = c.server_shutdown_calls := by
  unfold proxy_connection_unref destroyConn; split <;> rfl

@[simp] theorem unref_client_is_writing (c : proxy_connection) :
    (proxy_connection_unref c).client_is_writing = c.client_is_writing := by
  unfold proxy_connection_unref destroyConn; split <;> rfl

@[simp] theorem unref_server_is_writing (c : proxy_connection) :
    (proxy_connection_unref c).server_is_writing = c.server_is_writing := by
  unfold proxy_connection_unref destroyConn; split <;> rfl

@[simp] theorem unref_read_from_client (c : proxy_connection) :
    (proxy_connection_unref c).read_from_client = c.read_from_client := by
  unfold proxy_connection_unref destroyConn; split <;> rfl

@[simp] theorem unref_read_from_server (c : proxy_connection) :
    (proxy_connection_unref c).read_from_server = c.read_from_server := by
  unfold proxy_connection_unref destroyConn; split <;> rfl

@[simp] theorem unref_written_to_client (c : proxy_connection) :
    (proxy_connection_unref c).written_to_client = c.written_to_client := by
  unfold proxy_connection_unref destroyConn; split <;> rfl

@[simp] theorem unref_written_to_server (c : proxy_connection) :
    (proxy_connection_unref c).written_to_server = c.written_to_server := by
  unfold proxy_connection_unref destroyConn; split <;> rfl

@[simp] theorem unref_client_reads_issued (c : proxy_connection) :
    (proxy_connection_unref c).client_reads_issued = c.client_reads_issued := by
  unfold proxy_connection_unref destroyConn; split <;> rfl

@[simp] theorem unref_server_reads_issued (c : proxy_connection) :
    (proxy_connection_unref c).server_reads_issued = c.server_reads_issued := by
  unfold proxy_connection_unref destroyConn; split <;> rfl

@[simp] theorem unref_client_writes_issued (c : proxy_connection) :
    (proxy_connection_unref c).client_writes_issued = c.client_writes_issued := by
  unfold proxy_connection_unref destroyConn; split <;> rfl

@[simp] theorem unref_server_writes_issued (c : proxy_connection) :
    (proxy_connection_unref c).server_writes_issued = c.server_writes_issued := by
  unfold proxy_connection_unref destroyConn; split <;> rfl

@[simp] theorem unref_phase (c : proxy_connection) :
    (proxy_connection_unref c).phase = c.phase := by
  unfold proxy_connection_unref destroyConn; split <;> rfl

@[simp] theorem unref_server_endpoint_set (c : proxy_connection) :
    (proxy_connection_unref c).server_endpoint_set = c.server_endpoint_set := by
  unfold proxy_connection_unref destroyConn; split <;> rfl

@[simp] theorem pcf_refcount (c : proxy_connection) (f : FailureType) :
    (proxy_connection_failed c f).refcount = c.refcount - 1 := by
  simp only [proxy_connection_failed]
  split <;> split <;> simp

@[simp] theorem pcf_client_read_failed (c : proxy_connection) (f : FailureType) :
    (proxy_connection_failed c f).client_read_failed = c.client_read_failed := by
  simp only [proxy_connection_failed]
  split <;> split <;> simp

@[simp] theorem pcf_client_write_failed (c : proxy_connection) (f : FailureType) :
    (proxy_connection_failed c f).client_write_failed = c.client_write_failed := by
  simp only [proxy_connection_failed]
  split <;> split <;> simp

@[simp] theorem pcf_server_read_failed (c : proxy_connection) (f : FailureType) :
    (proxy_connection_failed c f).server_read_failed = c.server_read_failed := by
  simp only [proxy_connection_failed]
  split <;> split <;> simp

@[simp] theorem pcf_server_write_failed (c : proxy_connection) (f : FailureType) :
    (proxy_connection_failed c f).server_write_failed = c.server_write_failed := by
  simp only [proxy_connection_failed]
  split <;> split <;> simp

@[simp] theorem pcf_client_is_writing (c : proxy_connection) (f : FailureType) :
    (proxy_connection_failed c f).client_is_writing = c.client_is_writing := by
  simp only [proxy_connection_failed]
  split <;> split <;> simp

@[simp] theorem pcf_server_is_writing (c : proxy_connection) (f : FailureType) :
    (proxy_connection_failed c f).server_is_writing = c.server_is_writing := by
  simp only [proxy_connection_failed]
  split <;> split <;> simp

@[simp] theorem pcf_read_from_client (c : proxy_connection) (f : FailureType) :
    (proxy_connection_failed c f).read_from_client = c.read_from_client := by
  simp only [proxy_connection_failed]
  split <;> split <;> simp

@[simp] theorem pcf_read_from_server (c : proxy_connection) (f : FailureType) :
    (proxy_connection_failed c f).read_from_server = c.read_from_server := by
  simp only [proxy_connection_failed]
  split <;> split <;> simp

@[simp] theorem pcf_written_to_client (c : proxy_connection) (f : FailureType) :
    (proxy_connection_failed c f).written_to_client = c.written_to_client := by
  simp only [proxy_connection_failed]
  split <;> split <;> simp

@[simp] theorem pcf_written_to_server (c : proxy_connection) (f : FailureType) :
    (proxy_connection_failed c f).written_to_server = c.written_to_server := by
  simp only [proxy_connection_failed]
  split <;> split <;> simp

@[simp] theorem pcf_client_reads_issued (c : proxy_connection) (f : FailureType) :
    (proxy_connection_failed c f).client_reads_issued = c.client_reads_issued := by
  simp only [proxy_connection_failed]
  split <;> split <;> simp

@[simp] theorem pcf_server_reads_issued (c : proxy_connection) (f : FailureType) :
    (proxy_connection_failed c f).server_reads_issued = c.server_reads_issued := by
  simp only [proxy_connection_failed]
  split <;> split <;> simp

@[simp] theorem pcf_client_writes_issued (c : proxy_connection) (f : FailureType) :
    (proxy_connection_failed c f).client_writes_issued = c.client_writes_issued := by
  simp only [proxy_connection_failed]
  split <;> split <;> simp

@[simp] theorem pcf_server_writes_issued (c : proxy_connection) (f : FailureType) :
    (proxy_connection_failed c f).server_writes_issued = c.server_writes_issued := by
  simp only [proxy_connection_failed]
  split <;> split <;> simp

@[simp] theorem pcf_phase (c : proxy_connection) (f : FailureType) :
    (proxy_connection_failed c f).phase = c.phase := by
  simp only [proxy_connection_failed]
  split <;> split <;> simp

@[simp] theorem pcf_server_endpoint_set (c : proxy_connection) (f : FailureType) :
    (proxy_connection_failed c f).server_endpoint_set = c.server_endpoint_set := by
  simp only [proxy_connection_failed]
  split <;> split <;> simp

/-! ### C1 -/

/-- C1: for a relay-phase failure the client endpoint is chosen for
shutdown exactly when the client read failed with `client_write_failed`
set, the client write failed with `client_read_failed` set, or the origin
(server) read failed while `client_is_writing` is false; the origin is
chosen exactly when the origin read failed with `server_write_failed` set,
the origin write failed with `server_read_failed` set, or the client read
failed while `server_is_writing` is false.  A handshake-phase
(`SETUP_FAILED`) failure chooses both, and the origin endpoint is actually
shut down only when it has been allocated. -/
theorem C1_shutdown_policy (c : proxy_connection) (f : FailureType) :
    shutdown_decisions c FailureType.SETUP_FAILED = (true, true) ∧
    (f ≠ FailureType.SETUP_FAILED →
      ((shutdown_decisions c f).1 = true ↔
        (f = FailureType.CLIENT_READ_FAILED ∧ c.client_write_failed = true) ∨
        (f = FailureType.CLIENT_WRITE_FAILED ∧ c.client_read_failed = true) ∨
        (f = FailureType.SERVER_READ_FAILED ∧ c.client_is_writing = false))) ∧
    (f ≠ FailureType.SETUP_FAILED →
      ((shutdown_decisions c f).2 = true ↔
        (f = FailureType.SERVER_READ_FAILED ∧ c.server_write_failed = true) ∨
        (f = FailureType.SERVER_WRITE_FAILED ∧ c.server_read_failed = true) ∨
        (f = FailureType.CLIENT_READ_FAILED ∧ c.server_is_writing = false))) ∧
    (c.server_endpoint_set = false →
      (proxy_connection_failed c f).server_shutdown = c.server_shutdown ∧
      (proxy_connection_failed c f).server_shutdown_calls =
        c.server_shutdown_calls) := by
  refine ⟨by simp [shutdown_decisions], ?_, ?_, ?_⟩
  · intro _
    cases f <;> simp_all [shutdown_decisions]
  · intro _
    cases f <;> simp_all [shutdown_decisions]
  · intro h
    simp only [proxy_connection_failed]
    split <;> split <;> simp_all

/-- Witness for C1 at a concrete state and failure kind. -/
theorem C1_shutdown_policy_witness :
    (shutdown_decisions relayStart FailureType.SERVER_READ_FAILED).1 = true ↔
      (FailureType.SERVER_READ_FAILED = FailureType.CLIENT_READ_FAILED ∧
        relayStart.client_write_failed = true) ∨
      (FailureType.SERVER_READ_FAILED = FailureType.CLIENT_WRITE_FAILED ∧
        relayStart.client_read_failed = true) ∨
      (FailureType.SERVER_READ_FAILED = FailureType.SERVER_READ_FAILED ∧
        relayStart.client_is_writing = false) := by
  have h := C1_shutdown_policy relayStart FailureType.SERVER_READ_FAILED
  exact h.2.1 (by decide)

/-! ### C5 -/

/-- C5: with a configured credential, the connection proceeds past the
auth check iff the first `Proxy-Authorization` header's value starts with
the six bytes `"Basic "` and its remainder base64-decodes to the expected
credential (a missing header or any mismatch fails the check, tearing the
connection down); with no credential configured the check is skipped. -/
theorem C5_auth_check (b64 : String → String) (cred : String)
    (hdrs : List (String × String)) :
    auth_check b64 none hdrs = true ∧
    (auth_check b64 (some cred) hdrs = true ↔
      ∃ pre v post,
        hdrs = pre ++ ("Proxy-Authorization", v) :: post ∧
        (∀ kv ∈ pre, kv.1 ≠ "Proxy-Authorization") ∧
        v.take 6 = "Basic " ∧ b64 (v.drop 6) = cred) := by
  refine ⟨rfl, ?_⟩
  show scan_proxy_auth b64 cred hdrs = true ↔ _
  induction hdrs with
  | nil =>
      simp only [scan_proxy_auth]
      constructor
      · intro h; cases h
      · rintro ⟨pre, v, post, hdecomp, -, -, -⟩
        cases pre <;> simp_all
  | cons h t ih =>
      by_cases hk : h.1 = "Proxy-Authorization"
      · simp only [scan_proxy_auth, if_pos hk]
        unfold proxy_auth_header_matches
        constructor
        · intro hm
          refine ⟨[], h.2, t, ?_, by simp, ?_⟩
          · simp [← hk]
          · by_cases htake : h.2.take 6 = "Basic "
            · refine ⟨htake, ?_⟩
              rw [if_neg (by simp [htake])] at hm
              exact of_decide_eq_true hm
            · rw [if_pos htake] at hm
              cases hm
        · rintro ⟨pre, v, post, hdecomp, hpre, htake, hdec⟩
          cases pre with
          | nil =>
              simp only [List.nil_append, List.cons.injEq] at hdecomp
              obtain ⟨hh, -⟩ := hdecomp
              have hv : h.2 = v := by rw [hh]
              rw [hv, if_neg (by simp [htake])]
              exact decide_eq_true hdec
          | cons p pre' =>
              exfalso
              simp only [List.cons_append, List.cons.injEq] at hdecomp
              exact hpre p (by simp) (hdecomp.1 ▸ hk)
      · simp only [scan_proxy_auth, if_neg hk]
        rw [ih]
        constructor
        · rintro ⟨pre, v, post, hdecomp, hpre, htake, hdec⟩
          refine ⟨h :: pre, v, post, by simp [hdecomp], ?_, htake, hdec⟩
          intro kv hkv
          rcases List.mem_cons.mp hkv with rfl | hmem
          · exact hk
          · exact hpre kv hmem
        · rintro ⟨pre, v, post, hdecomp, hpre, htake, hdec⟩
          cases pre with
          | nil =>
              exfalso
              simp only [List.nil_append, List.cons.injEq] at hdecomp
              exact hk (by rw [hdecomp.1])
          | cons p pre' =>
              simp only [List.cons_append, List.cons.injEq] at hdecomp
              refine ⟨pre', v, post, hdecomp.2, ?_, htake, hdec⟩
              intro kv hkv
              exact hpre kv (List.mem_cons_of_mem p hkv)

/-! ### C6 -/

/-- C6 counterexample: the 200 response the proxy enqueues for the client
on handshake success is not 25 bytes long (it is 26). -/
theorem C6_counterexample :
    ¬ ((on_server_connect_done_locked connectInit false).client_write_buffer.length
        = 25) := by decide

/-- C6 (amended): on handshake success the proxy enqueues exactly the
bytes of `"HTTP/1.0 200 connected\r\n\r\n"` — 26 bytes — into the client
write buffer, sets `client_is_writing` and issues the write. -/
theorem C6_write_200 (c : proxy_connection) :
    (on_server_connect_done_locked c false).client_write_buffer =
      c.client_write_buffer ++ http_200_bytes ∧
    (on_server_connect_done_locked c false).client_is_writing = true ∧
    (on_server_connect_done_locked c false).client_writes_issued =
      c.client_writes_issued + 1 ∧
    http_200_bytes.length = 26 ∧
    http_200_bytes = "HTTP/1.0 200 connected\r\n\r\n".data.map Char.toNat := by
  refine ⟨?_, ?_, ?_, by decide, rfl⟩ <;>
    simp [on_server_connect_done_locked]

/-! ### C7 -/

/-- C7 counterexample: an empty (but successful) resolution result does
not tear the connection down — it trips `GPR_ASSERT`. -/
theorem C7_counterexample :
    resolve_and_connect 0 (Except.ok ([] : List Nat)) ≠
      (ResolveOutcome.teardown : ResolveOutcome Nat) := by decide

/-- C7 (amended): the DNS collaborator is called with the request path as
host and the literal `"80"` as service; a resolution error tears the
connection down, but an empty result list trips an assertion (aborting the
process) rather than tearing down; on success the first resolved address is
dialed with deadline `now + 10` seconds. -/
theorem C7_resolve (path : String) (now : Int) (msg : String) (a : Nat)
    (rest : List Nat) :
    lookup_args path = (path, "80") ∧
    resolve_and_connect now (Except.error msg : Except String (List Nat)) =
      ResolveOutcome.teardown ∧
    resolve_and_connect now (Except.ok ([] : List Nat)) =
      ResolveOutcome.assert_fail ∧
    resolve_and_connect now (Except.ok (a :: rest)) =
      ResolveOutcome.dial a (now + 10) := by
  exact ⟨rfl, rfl, rfl, rfl⟩

/-! ### Generic lemmas about `run` -/

theorem run_append (es es' : List Event) :
    ∀ c : proxy_connection,
      run c (es ++ es') = (run c es).bind (fun m => run m es') := by
  induction es with
  | nil => intro c; rfl
  | cons e es ih =>
      intro c
      simp only [List.cons_append, run]
      split
      · exact ih _
      · rfl

theorem run_preserve {P : proxy_connection → Prop}
    (hstep : ∀ c e, P c → validEvent c e = true → P (step c e)) :
    ∀ (es : List Event) (c c' : proxy_connection),
      P c → run c es = some c' → P c' := by
  intro es
  induction es with
  | nil =>
      intro c c' h hr
      cases hr
      exact h
  | cons e es ih =>
      intro c c' h hr
      simp only [run] at hr
      split at hr
      · exact ih _ _ (hstep c e h (by assumption)) hr
      · cases hr

theorem run_preserve_ok {P : proxy_connection → Prop}
    (hstep : ∀ c e, okEvent e = true → P c → validEvent c e = true →
      P (step c e)) :
    ∀ (es : List Event) (c c' : proxy_connection),
      (∀ e ∈ es, okEvent e = true) → P c → run c es = some c' → P c' := by
  intro es
  induction es with
  | nil =>
      intro c c' _ h hr
      cases hr
      exact h
  | cons e es ih =>
      intro c c' hok h hr
      simp only [run] at hr
      split at hr
      · exact ih _ _ (fun x hx => hok x (List.mem_cons_of_mem e hx))
          (hstep c e (hok e (List.mem_cons_self e es)) h (by assumption)) hr
      · cases hr

theorem run_mono {R : proxy_connection → proxy_connection → Prop}
    (hrefl : ∀ c, R c c)
    (htrans : ∀ a b d, R a b → R b d → R a d)
    (hstep : ∀ c e, validEvent c e = true → R c (step c e)) :
    ∀ (es : List Event) (c c' : proxy_connection),
      run c es = some c' → R c c' := by
  intro es
  induction es with
  | nil =>
      intro c c' hr
      cases hr
      exact hrefl _
  | cons e es ih =>
      intro c c' hr
      simp only [run] at hr
      split at hr
      · exact htrans _ _ _ (hstep c e (by assumption)) (ih _ _ hr)
      · cases hr

/-! ### The four failure flags are never assigned -/

theorem step_failed_flags (c : proxy_connection) (e : Event) :
    (step c e).client_read_failed = c.client_read_failed ∧
    (step c e).client_write_failed = c.client_write_failed ∧
    (step c e).server_read_failed = c.server_read_failed ∧
    (step c e).server_write_failed = c.server_write_failed := by
  cases e <;>
    simp only [step, on_client_read_done_locked, on_server_read_done_locked,
      on_client_write_done_locked, on_server_write_done_locked,
      on_server_connect_done_locked, on_write_response_done_locked,
      proxy_connection_ref] <;>
    (repeat' split) <;> simp

theorem run_flags_false (es : List Event) (c : proxy_connection)
    (hr : run connectInit es = some c) : FlagsFalse c := by
  refine run_preserve (P := FlagsFalse) ?_ es connectInit c ?_ hr
  · intro d e hd _
    obtain ⟨q1, q2, q3, q4⟩ := step_failed_flags d e
    exact ⟨q1.trans hd.1, q2.trans hd.2.1, q3.trans hd.2.2.1,
      q4.trans hd.2.2.2⟩
  · exact ⟨rfl, rfl, rfl, rfl⟩

/-! ### Shutdown-count invariant and monotonicity -/

theorem pcf_shut_count (c : proxy_connection) (f : FailureType)
    (h : ShutCount c) : ShutCount (proxy_connection_failed c f) := by
  obtain ⟨h1, h2⟩ := h
  simp only [proxy_connection_failed]
  split <;> split <;> constructor <;> simp_all

theorem pcf_client_shutdown_mono (c : proxy_connection) (f : FailureType)
    (h : c.client_shutdown = true) :
    (proxy_connection_failed c f).client_shutdown = true := by
  simp only [proxy_connection_failed]
  split <;> split <;> simp_all

theorem pcf_server_shutdown_mono (c : proxy_connection) (f : FailureType)
    (h : c.server_shutdown = true) :
    (proxy_connection_failed c f).server_shutdown = true := by
  simp only [proxy_connection_failed]
  split <;> split <;> simp_all

theorem step_shut_count (c : proxy_connection) (e : Event)
    (h : ShutCount c) : ShutCount (step c e) := by
  obtain ⟨h1, h2⟩ := h
  cases e <;>
    simp only [step, on_client_read_done_locked, on_server_read_done_locked,
      on_client_write_done_locked, on_server_write_done_locked,
      on_server_connect_done_locked, on_write_response_done_locked,
      proxy_connection_ref] <;>
    (repeat' split) <;>
    first
      | exact pcf_shut_count _ _ ⟨h1, h2⟩
      | exact ⟨by simp_all, by simp_all⟩

theorem step_shutdown_mono (c : proxy_connection) (e : Event) :
    (c.client_shutdown = true → (step c e).client_shutdown = true) ∧
    (c.server_shutdown = true → (step c e).server_shutdown = true) := by
  cases e <;>
    simp only [step, on_client_read_done_locked, on_server_read_done_locked,
      on_client_write_done_locked, on_server_write_done_locked,
      on_server_connect_done_locked, on_write_response_done_locked,
      proxy_connection_ref] <;>
    (repeat' split) <;>
    first
      | exact ⟨fun h => pcf_client_shutdown_mono _ _ h,
          fun h => pcf_server_shutdown_mono _ _ h⟩
      | exact ⟨by simp_all, by simp_all⟩

/-! ### C8 -/

/-- C8: on any valid execution from the dial point, each side's `shutdown`
flag only goes from false to true (never back), and `endpoint.shutdown`
has been invoked at most once per side, no matter how many times the
shutdown policy ran. -/
theorem C8_shutdown_at_most_once (es es' : List Event)
    (c c' : proxy_connection)
    (h1 : run connectInit es = some c) (h2 : run c es' = some c') :
    (c.client_shutdown = true → c'.client_shutdown = true) ∧
    (c.server_shutdown = true → c'.server_shutdown = true) ∧
    c'.client_shutdown_calls ≤ 1 ∧ c'.server_shutdown_calls ≤ 1 := by
  have hmono :
      (c.client_shutdown = true → c'.client_shutdown = true) ∧
      (c.server_shutdown = true → c'.server_shutdown = true) := by
    refine run_mono
      (R := fun a b =>
        (a.client_shutdown = true → b.client_shutdown = true) ∧
        (a.server_shutdown = true → b.server_shutdown = true))
      (fun a => ⟨id, id⟩) ?_ ?_ es' c c' h2
    · intro a b d hab hbd
      exact ⟨fun h => hbd.1 (hab.1 h), fun h => hbd.2 (hab.2 h)⟩
    · intro d e _
      exact step_shutdown_mono d e
  have hcount : ShutCount c' := by
    have hall : run connectInit (es ++ es') = some c' := by
      rw [run_append, h1]
      exact h2
    refine run_preserve (P := ShutCount) ?_ (es ++ es') connectInit c' ?_ hall
    · intro d e hd _
      exact step_shut_count d e hd
    · exact ⟨rfl, rfl⟩
  obtain ⟨hc1, hc2⟩ := hcount
  refine ⟨hmono.1, hmono.2, ?_, ?_⟩
  · rw [hc1]; split <;> omega
  · rw [hc2]; split <;> omega

/-- Witness for C8 on a concrete trace: a server-read error shuts the
client down once; a further client-read error does not shut it again. -/
theorem C8_shutdown_at_most_once_witness :
    ((run relayStart [Event.serverReadErr, Event.clientReadErr]).getD
        relayStart).client_shutdown_calls ≤ 1 := by
  have h := C8_shutdown_at_most_once
    [Event.serverConnectOk, Event.writeResponseOk]
    [Event.serverReadErr, Event.clientReadErr]
    relayStart
    ((run relayStart [Event.serverReadErr, Event.clientReadErr]).getD
      relayStart)
    (by decide) (by decide)
  exact h.2.2.1

/-! ### C9 -/

/-- C9: in every reachable state the four failure flags are false (no
handler ever assigns them), so for a non-setup failure the shutdown policy
can only choose the client on a server-read failure with
`client_is_writing` false, and the server on a client-read failure with
`server_is_writing` false. -/
theorem C9_failed_flags_false (es : List Event) (c : proxy_connection)
    (hrun : run connectInit es = some c) :
    c.client_read_failed = false ∧ c.client_write_failed = false ∧
    c.server_read_failed = false ∧ c.server_write_failed = false ∧
    ∀ f : FailureType, f ≠ FailureType.SETUP_FAILED →
      shutdown_decisions c f =
        (decide (f = FailureType.SERVER_READ_FAILED) && !c.client_is_writing,
         decide (f = FailureType.CLIENT_READ_FAILED) && !c.server_is_writing) := by
  obtain ⟨h1, h2, h3, h4⟩ := run_flags_false es c hrun
  refine ⟨h1, h2, h3, h4, ?_⟩
  intro f hf
  cases f <;> simp_all [shutdown_decisions]

/-- Witness for C9 on a concrete trace. -/
theorem C9_failed_flags_false_witness :
    ((run connectInit [Event.serverConnectOk, Event.writeResponseOk,
        Event.clientReadOk [1], Event.serverWriteErr]).getD
      connectInit).client_read_failed = false := by
  have h := C9_failed_flags_false
    [Event.serverConnectOk, Event.writeResponseOk,
      Event.clientReadOk [1], Event.serverWriteErr]
    ((run connectInit [Event.serverConnectOk, Event.writeResponseOk,
        Event.clientReadOk [1], Event.serverWriteErr]).getD connectInit)
    (by decide)
  exact h.1

/-! ### Relay-phase byte-stream invariant (error-free executions) -/

theorem unref_of_ne_one (c : proxy_connection) (h : c.refcount ≠ 1) :
    proxy_connection_unref c = { c with refcount := c.refcount - 1 } := by
  unfold proxy_connection_unref
  rw [if_neg h]

@[simp] theorem unref_keep_destroyed (c : proxy_connection)
    (h : ¬c.refcount = 1) :
    (proxy_connection_unref c).destroyed = c.destroyed := by
  rw [unref_of_ne_one c h]

@[simp] theorem unref_keep_client_read_buffer (c : proxy_connection)
    (h : ¬c.refcount = 1) :
    (proxy_connection_unref c).client_read_buffer = c.client_read_buffer := by
  rw [unref_of_ne_one c h]

@[simp] theorem unref_keep_client_deferred (c : proxy_connection)
    (h : ¬c.refcount = 1) :
    (proxy_connection_unref c).client_deferred_write_buffer =
      c.client_deferred_write_buffer := by
  rw [unref_of_ne_one c h]

@[simp] theorem unref_keep_client_write_buffer (c : proxy_connection)
    (h : ¬c.refcount = 1) :
    (proxy_connection_unref c).client_write_buffer = c.client_write_buffer := by
  rw [unref_of_ne_one c h]

@[simp] theorem unref_keep_server_read_buffer (c : proxy_connection)
    (h : ¬c.refcount = 1) :
    (proxy_connection_unref c).server_read_buffer = c.server_read_buffer := by
  rw [unref_of_ne_one c h]

@[simp] theorem unref_keep_server_deferred (c : proxy_connection)
    (h : ¬c.refcount = 1) :
    (proxy_connection_unref c).server_deferred_write_buffer =
      c.server_deferred_write_buffer := by
  rw [unref_of_ne_one c h]

@[simp] theorem unref_keep_server_write_buffer (c : proxy_connection)
    (h : ¬c.refcount = 1) :
    (proxy_connection_unref c).server_write_buffer = c.server_write_buffer := by
  rw [unref_of_ne_one c h]

theorem relayInv_step (c : proxy_connection) (e : Event)
    (hok : okEvent e = true) (h : RelayInv c)
    (hv : validEvent c e = true) : RelayInv (step c e) := by
  obtain ⟨h1, h2, h3, h4, h5, h6, h7, h8, h9⟩ := h
  cases e with
  | serverConnectOk => simp [validEvent, h8] at hv
  | serverConnectErr => simp [okEvent] at hok
  | writeResponseOk => simp [validEvent, h8] at hv
  | writeResponseErr => simp [okEvent] at hok
  | clientReadErr => simp [okEvent] at hok
  | serverReadErr => simp [okEvent] at hok
  | clientWriteErr => simp [okEvent] at hok
  | serverWriteErr => simp [okEvent] at hok
  | clientReadOk b =>
      cases hsw : c.server_is_writing with
      | true =>
          refine ⟨?_, ?_, ?_, ?_, ?_, ?_, ?_, ?_, ?_⟩ <;>
            simp [step, on_client_read_done_locked, hsw, h2, h3, h4, h6,
              h7, h8, h9, ← h1, List.append_assoc] <;>
            first
              | exact h5
              | exact h6
              | (cases hx : c.client_is_writing <;>
                  cases hy : c.server_is_writing <;> simp_all)
      | false =>
          have hdb : c.server_deferred_write_buffer = [] := h5 hsw
          refine ⟨?_, ?_, ?_, ?_, ?_, ?_, ?_, ?_, ?_⟩ <;>
            simp [step, on_client_read_done_locked, hsw, h2, h3, h4, hdb,
              h6, h7, h8, h9, ← h1, List.append_assoc] <;>
            first
              | exact h5
              | exact h6
              | (cases hx : c.client_is_writing <;>
                  cases hy : c.server_is_writing <;> simp_all)
  | serverReadOk b =>
      cases hcw : c.client_is_writing with
      | true =>
          refine ⟨?_, ?_, ?_, ?_, ?_, ?_, ?_, ?_, ?_⟩ <;>
            simp [step, on_server_read_done_locked, hcw, h1, h3, h4, h5,
              h7, h8, h9, ← h2, List.append_assoc] <;>
            first
              | exact h5
              | exact h6
              | (cases hx : c.client_is_writing <;>
                  cases hy : c.server_is_writing <;> simp_all)
      | false =>
          have hdb : c.client_deferred_write_buffer = [] := h6 hcw
          refine ⟨?_, ?_, ?_, ?_, ?_, ?_, ?_, ?_, ?_⟩ <;>
            simp [step, on_server_read_done_locked, hcw, h1, h3, h4, hdb,
              h5, h7, h8, h9, ← h2, List.append_assoc] <;>
            first
              | exact h5
              | exact h6
              | (cases hx : c.client_is_writing <;>
                  cases hy : c.server_is_writing <;> simp_all)
  | serverWriteOk =>
      have hsw : c.server_is_writing = true := by
        simp [validEvent] at hv
        tauto
      cases hdb : c.server_deferred_write_buffer with
      | cons x xs =>
          refine ⟨?_, ?_, ?_, ?_, ?_, ?_, ?_, ?_, ?_⟩ <;>
            simp [step, on_server_write_done_locked, hdb, hsw, h2, h3, h4,
              h6, h7, h8, h9, ← h1, List.append_assoc] <;>
            first
              | exact h5
              | exact h6
              | (cases hx : c.client_is_writing <;>
                  cases hy : c.server_is_writing <;> simp_all)
      | nil =>
          have hne : c.refcount ≠ 1 := by
            cases hcw : c.client_is_writing <;> simp_all
          refine ⟨?_, ?_, ?_, ?_, ?_, ?_, ?_, ?_, ?_⟩ <;>
            simp [step, on_server_write_done_locked, hdb, hsw, hne, h2, h3,
              h4, h6, h8, h9, ← h1, List.append_assoc] <;>
            first
              | exact h5
              | exact h6
              | (cases hx : c.client_is_writing <;>
                  cases hy : c.server_is_writing <;> simp_all)
  | clientWriteOk =>
      have hcw : c.client_is_writing = true := by
        simp [validEvent] at hv
        tauto
      cases hdb : c.client_deferred_write_buffer with
      | cons x xs =>
          refine ⟨?_, ?_, ?_, ?_, ?_, ?_, ?_, ?_, ?_⟩ <;>
            simp [step, on_client_write_done_locked, hdb, hcw, h1, h3, h4,
              h5, h7, h8, h9, ← h2, List.append_assoc] <;>
            first
              | exact h5
              | exact h6
              | (cases hx : c.client_is_writing <;>
                  cases hy : c.server_is_writing <;> simp_all)
      | nil =>
          have hne : c.refcount ≠ 1 := by
            cases hsw : c.server_is_writing <;> simp_all
          refine ⟨?_, ?_, ?_, ?_, ?_, ?_, ?_, ?_, ?_⟩ <;>
            simp [step, on_client_write_done_locked, hdb, hcw, hne, h1, h3,
              h4, h5, h8, h9, ← h2, List.append_assoc] <;>
            first
              | exact h5
              | exact h6
              | (cases hx : c.client_is_writing <;>
                  cases hy : c.server_is_writing <;> simp_all)

/-! ### C4 -/

/-- C4 counterexample: a valid relay execution that contains one failed
server write ends alive and fully drained (empty write and deferred
buffers) with the origin endpoint having received `[1, 3, 2]` while the
client endpoint supplied `[1, 2, 3]`: the error path leaves the stale
write buffer in place, a later read re-sends it with new bytes appended,
and the deferred bytes drain after those — reordered delivery, so the
unconditional byte-for-byte equality of the claim fails. -/
theorem C4_counterexample :
    (run relayStart [Event.clientReadOk [1], Event.clientReadOk [2],
        Event.serverWriteErr, Event.clientReadOk [3], Event.serverWriteOk,
        Event.serverWriteOk]).map
      proxy_connection.read_from_client = some [1, 2, 3] ∧
    (run relayStart [Event.clientReadOk [1], Event.clientReadOk [2],
        Event.serverWriteErr, Event.clientReadOk [3], Event.serverWriteOk,
        Event.serverWriteOk]).map
      proxy_connection.written_to_server = some [1, 3, 2] ∧
    (run relayStart [Event.clientReadOk [1], Event.clientReadOk [2],
        Event.serverWriteErr, Event.clientReadOk [3], Event.serverWriteOk,
        Event.serverWriteOk]).map
      proxy_connection.server_write_buffer = some [] ∧
    (run relayStart [Event.clientReadOk [1], Event.clientReadOk [2],
        Event.serverWriteErr, Event.clientReadOk [3], Event.serverWriteOk,
        Event.serverWriteOk]).map
      proxy_connection.server_deferred_write_buffer = some [] ∧
    (run relayStart [Event.clientReadOk [1], Event.clientReadOk [2],
        Event.serverWriteErr, Event.clientReadOk [3], Event.serverWriteOk,
        Event.serverWriteOk]).map
      proxy_connection.destroyed = some false ∧
    ([1, 3, 2] : List Nat) ≠ [1, 2, 3] := by
  decide

/-- C4 (amended): along any error-free relay execution, the bytes
delivered to the origin (server) endpoint followed by the in-flight and
deferred bytes of that direction equal, byte for byte and in order, the
bytes read from the client endpoint — so whenever that direction has fully
drained, the bytes written to the origin equal the bytes read from the
client; and symmetrically for the origin-to-client direction.  (A relay
write error can cause reordered delivery, because the error path does not
reset the write buffer and a later write re-sends it ahead of the deferred
bytes, so the equality does not hold unconditionally.) -/
theorem C4_relay_byte_streams (es : List Event) (c : proxy_connection)
    (hok : ∀ e ∈ es, okEvent e = true)
    (hrun : run relayStart es = some c) :
    c.written_to_server ++ c.server_write_buffer ++
        c.server_deferred_write_buffer = c.read_from_client ∧
    c.written_to_client ++ c.client_write_buffer ++
        c.client_deferred_write_buffer = c.read_from_server ∧
    (c.server_write_buffer = [] → c.server_deferred_write_buffer = [] →
      c.written_to_server = c.read_from_client) ∧
    (c.client_write_buffer = [] → c.client_deferred_write_buffer = [] →
      c.written_to_client = c.read_from_server) := by
  have hInit : RelayInv relayStart := by
    unfold RelayInv
    decide
  have h := run_preserve_ok (P := RelayInv) relayInv_step es relayStart c
    hok hInit hrun
  obtain ⟨h1, h2, -, -, -, -, -, -, -⟩ := h
  refine ⟨h1, h2, ?_, ?_⟩
  · intro hwb hdb
    rw [hwb, hdb] at h1
    simpa using h1
  · intro hwb hdb
    rw [hwb, hdb] at h2
    simpa using h2

/-- Witness for C4: a concrete error-free exchange in both directions. -/
theorem C4_relay_byte_streams_witness :
    ((run relayStart [Event.clientReadOk [1, 2], Event.serverWriteOk,
        Event.serverReadOk [7], Event.clientWriteOk]).getD
      relayStart).written_to_server =
    ((run relayStart [Event.clientReadOk [1, 2], Event.serverWriteOk,
        Event.serverReadOk [7], Event.clientWriteOk]).getD
      relayStart).read_from_client := by
  have h := C4_relay_byte_streams
    [Event.clientReadOk [1, 2], Event.serverWriteOk,
      Event.serverReadOk [7], Event.clientWriteOk]
    ((run relayStart [Event.clientReadOk [1, 2], Event.serverWriteOk,
        Event.serverReadOk [7], Event.clientWriteOk]).getD relayStart)
    (by decide) (by decide)
  exact h.2.2.1 (by decide) (by decide)

@[simp] theorem unref_server_write_buffer_nil (c : proxy_connection)
    (h : c.server_write_buffer = []) :
    (proxy_connection_unref c).server_write_buffer = [] := by
  unfold proxy_connection_unref destroyConn
  split <;> simp_all

@[simp] theorem unref_client_write_buffer_nil (c : proxy_connection)
    (h : c.client_write_buffer = []) :
    (proxy_connection_unref c).client_write_buffer = [] := by
  unfold proxy_connection_unref destroyConn
  split <;> simp_all

@[simp] theorem unref_server_deferred_nil (c : proxy_connection)
    (h : c.server_deferred_write_buffer = []) :
    (proxy_connection_unref c).server_deferred_write_buffer = [] := by
  unfold proxy_connection_unref destroyConn
  split <;> simp_all

@[simp] theorem unref_client_deferred_nil (c : proxy_connection)
    (h : c.client_deferred_write_buffer = []) :
    (proxy_connection_unref c).client_deferred_write_buffer = [] := by
  unfold proxy_connection_unref destroyConn
  split <;> simp_all

/-! ### C2 -/

/-- C2: on a successful read completion on side S whose opposite side O
has a write in flight, the bytes just read are appended to O's deferred
buffer, no new write is issued and the refcount is unchanged; with no
write in flight, the bytes are moved into O's write buffer, one ref is
taken, `O.is_writing` is set and a write is issued on O; in both cases the
read on S is re-issued.  On a successful write completion on O the write
buffer's bytes are delivered and the buffer reset; with a non-empty
deferred buffer its bytes move into the write buffer, `O.is_writing` stays
set and a write is re-issued reusing the current ref; otherwise
`O.is_writing` is cleared and the write's ref is dropped. -/
theorem C2_relay_pump (c : proxy_connection) (b : List Nat)
    (hcr : c.client_read_buffer = []) (hsr : c.server_read_buffer = []) :
    (c.server_is_writing = true →
      (step c (Event.clientReadOk b)).server_deferred_write_buffer =
          c.server_deferred_write_buffer ++ b ∧
      (step c (Event.clientReadOk b)).server_write_buffer =
          c.server_write_buffer ∧
      (step c (Event.clientReadOk b)).server_writes_issued =
          c.server_writes_issued ∧
      (step c (Event.clientReadOk b)).refcount = c.refcount ∧
      (step c (Event.clientReadOk b)).client_reads_issued =
          c.client_reads_issued + 1 ∧
      (step c (Event.clientReadOk b)).client_read_pending = true) ∧
    (c.server_is_writing = false →
      (step c (Event.clientReadOk b)).server_write_buffer =
          c.server_write_buffer ++ b ∧
      (step c (Event.clientReadOk b)).server_is_writing = true ∧
      (step c (Event.clientReadOk b)).refcount = c.refcount + 1 ∧
      (step c (Event.clientReadOk b)).server_writes_issued =
          c.server_writes_issued + 1 ∧
      (step c (Event.clientReadOk b)).client_reads_issued =
          c.client_reads_issued + 1 ∧
      (step c (Event.clientReadOk b)).client_read_pending = true) ∧
    (c.client_is_writing = true →
      (step c (Event.serverReadOk b)).client_deferred_write_buffer =
          c.client_deferred_write_buffer ++ b ∧
      (step c (Event.serverReadOk b)).client_write_buffer =
          c.client_write_buffer ∧
      (step c (Event.serverReadOk b)).client_writes_issued =
          c.client_writes_issued ∧
      (step c (Event.serverReadOk b)).refcount = c.refcount ∧
      (step c (Event.serverReadOk b)).server_reads_issued =
          c.server_reads_issued + 1 ∧
      (step c (Event.serverReadOk b)).server_read_pending = true) ∧
    (c.client_is_writing = false →
      (step c (Event.serverReadOk b)).client_write_buffer =
          c.client_write_buffer ++ b ∧
      (step c (Event.serverReadOk b)).client_is_writing = true ∧
      (step c (Event.serverReadOk b)).refcount = c.refcount + 1 ∧
      (step c (Event.serverReadOk b)).client_writes_issued =
          c.client_writes_issued + 1 ∧
      (step c (Event.serverReadOk b)).server_reads_issued =
          c.server_reads_issued + 1 ∧
      (step c (Event.serverReadOk b)).server_read_pending = true) ∧
    (0 < c.server_deferred_write_buffer.length →
      (step c Event.serverWriteOk).written_to_server =
          c.written_to_server ++ c.server_write_buffer ∧
      (step c Event.serverWriteOk).server_write_buffer =
          c.server_deferred_write_buffer ∧
      (step c Event.serverWriteOk).server_deferred_write_buffer = [] ∧
      (step c Event.serverWriteOk).server_is_writing = true ∧
      (step c Event.serverWriteOk).server_writes_issued =
          c.server_writes_issued + 1 ∧
      (step c Event.serverWriteOk).refcount = c.refcount) ∧
    (c.server_deferred_write_buffer = [] →
      (step c Event.serverWriteOk).written_to_server =
          c.written_to_server ++ c.server_write_buffer ∧
      (step c Event.serverWriteOk).server_write_buffer = [] ∧
      (step c Event.serverWriteOk).server_is_writing = false ∧
      (step c Event.serverWriteOk).server_writes_issued =
          c.server_writes_issued ∧
      (step c Event.serverWriteOk).refcount = c.refcount - 1) ∧
    (0 < c.client_deferred_write_buffer.length →
      (step c Event.clientWriteOk).written_to_client =
          c.written_to_client ++ c.client_write_buffer ∧
      (step c Event.clientWriteOk).client_write_buffer =
          c.client_deferred_write_buffer ∧
      (step c Event.clientWriteOk).client_deferred_write_buffer = [] ∧
      (step c Event.clientWriteOk).client_is_writing = true ∧
      (step c Event.clientWriteOk).client_writes_issued =
          c.client_writes_issued + 1 ∧
      (step c Event.clientWriteOk).refcount = c.refcount) ∧
    (c.client_deferred_write_buffer = [] →
      (step c Event.clientWriteOk).written_to_client =
          c.written_to_client ++ c.client_write_buffer ∧
      (step c Event.clientWriteOk).client_write_buffer = [] ∧
      (step c Event.clientWriteOk).client_is_writing = false ∧
      (step c Event.clientWriteOk).client_writes_issued =
          c.client_writes_issued ∧
      (step c Event.clientWriteOk).refcount = c.refcount - 1) := by
  refine ⟨?_, ?_, ?_, ?_, ?_, ?_, ?_, ?_⟩ <;> intro h <;>
    simp [step, on_client_read_done_locked, on_server_read_done_locked,
      on_client_write_done_locked, on_server_write_done_locked, h, hcr, hsr]

/-- Witness for C2 at `relayStart` with one byte read from the client. -/
theorem C2_relay_pump_witness :
    (step relayStart (Event.clientReadOk [5])).server_write_buffer =
        relayStart.server_write_buffer ++ [5] ∧
    (step relayStart (Event.clientReadOk [5])).refcount =
        relayStart.refcount + 1 := by
  have h := C2_relay_pump relayStart [5] (by decide) (by decide)
  have h2 := h.2.1 (by decide)
  exact ⟨h2.1, h2.2.2.1⟩

/-! ### C3 -/

/-- C3 counterexample: a client-read error completion during relaying does
not set `client_read_failed` — no handler in the source ever assigns the
failure flags. -/
theorem C3_counterexample :
    ¬ ((step relayStart Event.clientReadErr).client_read_failed = true) := by
  decide

/-- C3 (amended): an error read completion on side S invokes the shutdown
policy with the corresponding failure kind but leaves `S.read_failed`
unchanged (the flags are never assigned); an error write completion on
side O clears `O.is_writing` and invokes the policy with the corresponding
failure kind, leaving `O.write_failed` unchanged. -/
theorem C3_error_completions (c : proxy_connection) :
    step c Event.clientReadErr =
      proxy_connection_failed { c with client_read_pending := false }
        FailureType.CLIENT_READ_FAILED ∧
    (step c Event.clientReadErr).client_read_failed = c.client_read_failed ∧
    step c Event.serverReadErr =
      proxy_connection_failed { c with server_read_pending := false }
        FailureType.SERVER_READ_FAILED ∧
    (step c Event.serverReadErr).server_read_failed = c.server_read_failed ∧
    step c Event.clientWriteErr =
      proxy_connection_failed { c with client_is_writing := false }
        FailureType.CLIENT_WRITE_FAILED ∧
    (step c Event.clientWriteErr).client_write_failed =
      c.client_write_failed ∧
    (step c Event.clientWriteErr).client_is_writing = false ∧
    step c Event.serverWriteErr =
      proxy_connection_failed { c with server_is_writing := false }
        FailureType.SERVER_WRITE_FAILED ∧
    (step c Event.serverWriteErr).server_write_failed =
      c.server_write_failed ∧
    (step c Event.serverWriteErr).server_is_writing = false := by
  refine ⟨rfl, ?_, rfl, ?_, rfl, ?_, ?_, rfl, ?_, ?_⟩ <;>
    simp [step, on_client_read_done_locked, on_server_read_done_locked,
      on_client_write_done_locked, on_server_write_done_locked]

/-! ### C10 -/

theorem written_to_server_stable (es : List Event)
    (hno : ∀ e ∈ es, e ≠ Event.serverWriteOk) :
    ∀ c c' : proxy_connection,
      run c es = some c' → c'.written_to_server = c.written_to_server := by
  induction es with
  | nil =>
      intro c c' h
      cases h
      rfl
  | cons e es ih =>
      intro c c' h
      simp only [run] at h
      split at h
      · have hne : e ≠ Event.serverWriteOk := hno e (List.mem_cons_self e es)
        have hstep : (step c e).written_to_server = c.written_to_server := by
          cases e <;>
            first
              | exact absurd rfl hne
              | (simp only [step, on_client_read_done_locked,
                  on_server_read_done_locked, on_client_write_done_locked,
                  on_server_write_done_locked, on_server_connect_done_locked,
                  on_write_response_done_locked, proxy_connection_ref] <;>
                 (repeat' split) <;> simp_all)
        rw [← hstep]
        exact ih (fun x hx => hno x (List.mem_cons_of_mem e hx)) _ _ h
      · cases h

/-- C10 counterexample: a server write fails while the server deferred
buffer holds byte `2`; the policy shuts nothing down (the failure flags
are never set), a fresh client read issues a new server write, and the
following successful write completions deliver the deferred byte `2` to
the origin endpoint after all — the deferred bytes are not "never
written". -/
theorem C10_counterexample :
    (run relayStart [Event.clientReadOk [1], Event.clientReadOk [2],
        Event.serverWriteErr]).map
      proxy_connection.server_deferred_write_buffer = some [2] ∧
    (run relayStart [Event.clientReadOk [1], Event.clientReadOk [2],
        Event.serverWriteErr]).map
      proxy_connection.written_to_server = some [] ∧
    (run relayStart [Event.clientReadOk [1], Event.clientReadOk [2],
        Event.serverWriteErr, Event.clientReadOk [3], Event.serverWriteOk,
        Event.serverWriteOk]).map
      proxy_connection.written_to_server = some [1, 3, 2] := by
  decide

theorem pcf_server_deferred_of_ne (c : proxy_connection) (f : FailureType)
    (h : ¬c.refcount = 1) :
    (proxy_connection_failed c f).server_deferred_write_buffer =
      c.server_deferred_write_buffer := by
  simp only [proxy_connection_failed]
  split <;> split <;> simp_all

/-- C10 (amended): a write-error completion on side O clears
`O.is_writing` and invokes the shutdown policy without draining O's
deferred buffer (left intact whenever the connection survives the unref)
and without delivering or issuing anything; as long as no subsequent write
on O completes successfully, nothing further is delivered to O (so the
deferred bytes are not); and if the refcount reaches zero the connection
is destroyed with its deferred buffer.  (A later successful write on O,
which the policy does not prevent, can still drain the deferred bytes —
hence "never written" does not hold unconditionally.) -/
theorem C10_write_error_deferred (c : proxy_connection) (es : List Event) :
    ((c.refcount ≠ 1 →
        (step c Event.serverWriteErr).server_deferred_write_buffer =
          c.server_deferred_write_buffer) ∧
      (step c Event.serverWriteErr).written_to_server =
        c.written_to_server ∧
      (step c Event.serverWriteErr).server_writes_issued =
        c.server_writes_issued ∧
      (step c Event.serverWriteErr).server_is_writing = false ∧
      step c Event.serverWriteErr =
        proxy_connection_failed { c with server_is_writing := false }
          FailureType.SERVER_WRITE_FAILED) ∧
    ((∀ e ∈ es, e ≠ Event.serverWriteOk) →
      ∀ c' : proxy_connection,
        run (step c Event.serverWriteErr) es = some c' →
        c'.written_to_server = c.written_to_server) ∧
    (c.refcount = 1 →
      (proxy_connection_unref c).destroyed = true ∧
      (proxy_connection_unref c).server_deferred_write_buffer = []) := by
  have hw : (step c Event.serverWriteErr).written_to_server =
      c.written_to_server := by
    simp [step, on_server_write_done_locked]
  refine ⟨⟨?_, hw, ?_, ?_, rfl⟩, ?_, ?_⟩
  · intro hne
    have hq := pcf_server_deferred_of_ne
      { c with server_is_writing := false }
      FailureType.SERVER_WRITE_FAILED hne
    simpa [step, on_server_write_done_locked] using hq
  · simp [step, on_server_write_done_locked]
  · simp [step, on_server_write_done_locked]
  · intro hno c' h
    rw [written_to_server_stable es hno _ _ h, hw]
  · intro h1
    unfold proxy_connection_unref
    rw [if_pos h1]
    exact ⟨rfl, rfl⟩

/-- Witness for C10 at a concrete state with refcount one and an empty
continuation. -/
theorem C10_write_error_deferred_witness :
    (step lastRefState Event.serverWriteErr).written_to_server =
      lastRefState.written_to_server ∧
    (proxy_connection_unref lastRefState).destroyed = true := by
  have h := C10_write_error_deferred lastRefState []
  refine ⟨h.2.1 ?_ _ rfl, (h.2.2 (by decide)).1⟩
  intro e he
  simp at he

end HttpProxy
